import Mathlib

/-!
Verification development for the VMware snapshot-file parser
(`vmsn.py`, the tag-stream parser) and its Volatility address-space
wrapper (`volatility.py`, the run-table builder).

The Python sources are shallowly embedded below.  A snapshot file is a
finite list of byte values; the stateful file handle becomes an explicit
cursor position threaded through each reading primitive; Python
exceptions become an `Except Err` result.  Every definition follows the
corresponding source function line by line, including the places where
the source misbehaves (those places are pointed out in comments).
-/

set_option maxRecDepth 100000

deriving instance DecidableEq for Except

namespace Vmsn

/-- A byte stream: the contents of the snapshot file. -/
abbrev Bytes := List Nat

/-- Little-endian value of a byte string, as `struct.unpack` computes it
for the `=I` / `=Q` / `=B` formats. -/
def leVal : Bytes → Nat
  | [] => 0
  | b :: bs => b + 256 * leVal bs

/-- The error outcomes of the embedded code.  Each constructor stands for
one Python exception observed in the sources:
`truncated` for `struct.error` on a short unpack, `badMagic` for the
`ParserException` of `Parser.__init__`, `keyError` / `attributeError` /
`typeError` / `nameError` for the builtin exceptions of those names,
`diverge` for a scanning loop that never terminates,
`asAssertWrongFormat` and `asAssertNoMemory` for the two
`as_assert` probe failures of the address space. -/
inductive Err where
  | truncated
  | badMagic (m : Nat)
  | keyError
  | attributeError
  | typeError
  | nameError
  | diverge
  | asAssertWrongFormat
  | asAssertNoMemory
  deriving DecidableEq

/-- `struct.unpack` on a fixed-width little-endian format: requires the
byte string to have exactly the format's width, else `struct.error`. -/
def structUnpack (w : Nat) (bs : Bytes) : Except Err Nat :=
  if bs.length = w then Except.ok (leVal bs) else Except.error Err.truncated

/-- Positional read of at most `n` bytes at address `addr`: what
`fh.read(n)` returns after `fh.seek(addr)`.  A read at or past the end
of the stream returns the remaining (possibly zero) bytes. -/
def freada (file : Bytes) (addr n : Nat) : Bytes :=
  (file.drop addr).take n

/-- `reada_long` on a raw stream: 4-byte little-endian read at `addr`. -/
def freada_long (file : Bytes) (addr : Nat) : Except Err Nat :=
  structUnpack 4 (freada file addr 4)

/-- `reada_long_long` on a raw stream: 8-byte little-endian read. -/
def freada_long_long (file : Bytes) (addr : Nat) : Except Err Nat :=
  structUnpack 8 (freada file addr 8)

/-- `HEADER_SIZE` from `vmsn.py`. -/
def HEADER_SIZE : Nat := 12
/-- `GROUP_SIZE` from `vmsn.py`. -/
def GROUP_SIZE : Nat := 80
/-- `GROUP_NAME_SIZE` from `vmsn.py`. -/
def GROUP_NAME_SIZE : Nat := 64

/-- The `Parser` object after `__init__`: the stream it owns plus the
fields computed eagerly from the header. -/
structure Parser where
  file : Bytes
  version : Nat
  offset_size : Nat
  group_count : Nat
  deriving DecidableEq

/-- A group or tag identifier as Python passes it around: either a
string (here, its bytes) or an integer.  Python's `==` between a string
and an integer is `False`, which the comparison functions below mirror. -/
inductive PyVal where
  | str (s : Bytes)
  | int (n : Nat)
  deriving DecidableEq

namespace Parser

/-- `Parser.read(size)`: streaming read from the cursor.  Returns the
bytes obtained (possibly fewer than `size` at end of stream — `fh.read`
does not signal short reads) and the advanced cursor. -/
def read (p : Parser) (pos n : Nat) : Bytes × Nat :=
  let bs := freada p.file pos n
  (bs, pos + bs.length)

/-- `Parser.reada(addr, size)`: save cursor, seek, read, restore.  The
observable cursor is unchanged, so the model is a pure positional read. -/
def reada (p : Parser) (addr n : Nat) : Bytes :=
  freada p.file addr n

/-- `Parser.read_byte`: `read(1)` then `unpack('=B', ...)`. -/
def read_byte (p : Parser) (pos : Nat) : Except Err (Nat × Nat) :=
  let r := Parser.read p pos 1
  match structUnpack 1 r.1 with
  | Except.ok v => Except.ok (v, r.2)
  | Except.error e => Except.error e

/-- `Parser.read_long`: `read(4)` then `unpack('=I', ...)`. -/
def read_long (p : Parser) (pos : Nat) : Except Err (Nat × Nat) :=
  let r := Parser.read p pos 4
  match structUnpack 4 r.1 with
  | Except.ok v => Except.ok (v, r.2)
  | Except.error e => Except.error e

/-- `Parser.read_long_long`: `read(8)` then `unpack('=Q', ...)`. -/
def read_long_long (p : Parser) (pos : Nat) : Except Err (Nat × Nat) :=
  let r := Parser.read p pos 8
  match structUnpack 8 r.1 with
  | Except.ok v => Except.ok (v, r.2)
  | Except.error e => Except.error e

/-- `Parser.read_offset`: reads `offset_size` bytes (4 or 8, fixed at
construction) and unpacks with the matching width. -/
def read_offset (p : Parser) (pos : Nat) : Except Err (Nat × Nat) :=
  let r := Parser.read p pos p.offset_size
  match structUnpack p.offset_size r.1 with
  | Except.ok v => Except.ok (v, r.2)
  | Except.error e => Except.error e

/-- `Parser.reada_long(addr)`. -/
def reada_long (p : Parser) (addr : Nat) : Except Err Nat :=
  freada_long p.file addr

/-- `Parser.reada_long_long(addr)`. -/
def reada_long_long (p : Parser) (addr : Nat) : Except Err Nat :=
  freada_long_long p.file addr

/-- `Parser.__init__`: read the 32-bit magic at offset 0, map it to a
version (any other magic raises `ParserException`, modelled as
`badMagic`), fix the offset width, then read the 32-bit group count at
offset 8. -/
def init (file : Bytes) : Except Err Parser :=
  match freada_long file 0 with
  | Except.error e => Except.error e
  | Except.ok magic =>
    let ver : Except Err Nat :=
      if magic = 0xbed2bed0 then Except.ok 0
      else if magic = 0xbad1bad1 then Except.ok 1
      else if magic = 0xbed2bed2 then Except.ok 2
      else if magic = 0xbed3bed3 then Except.ok 3
      else Except.error (Err.badMagic magic)
    match ver with
    | Except.error e => Except.error e
    | Except.ok version =>
      let offset_size := if version = 0 then 4 else 8
      match freada_long file 8 with
      | Except.error e => Except.error e
      | Except.ok group_count =>
        Except.ok ⟨file, version, offset_size, group_count⟩

end Parser

/-- The inner loop of `Parser.search_group`: read one byte at a time
from the cursor until a NUL byte.  `fh.read(1)` at end of stream returns
the empty string, which never equals `'\x00'`, so if the remainder of
the stream holds no NUL byte the Python loop never terminates — the
model returns `none` for that case. -/
def scanName : Bytes → Option Bytes
  | [] => none
  | b :: bs =>
    if b = 0 then some []
    else Option.map (fun r => b :: r) (scanName bs)

/-- The comparison `group_name == group or group_index == group` of
`Parser.search_group`: a string identifier matches the decoded name, an
integer identifier matches the slot index. -/
def identMatches : PyVal → Bytes → Nat → Bool
  | PyVal.str s, nm, _ => s == nm
  | PyVal.int k, _, i => k == i

namespace Parser

/-- The loop of `Parser.search_group`: slot `i`, with `r` slots left to
examine.  Seeks to `HEADER_SIZE + i * GROUP_SIZE`, decodes the name up
to the NUL byte (with no length cap), and returns the first slot whose
name or index matches. -/
def search_group_loop (p : Parser) (id : PyVal) :
    Nat → Nat → Except Err (Option (Nat × Nat × Bytes))
  | _, 0 => Except.ok none
  | i, r + 1 =>
    match scanName (p.file.drop (HEADER_SIZE + i * GROUP_SIZE)) with
    | none => Except.error Err.diverge
    | some nm =>
      if identMatches id nm i then
        Except.ok (some (i, HEADER_SIZE + i * GROUP_SIZE, nm))
      else
        search_group_loop p id (i + 1) r

/-- `Parser.search_group`: iterate slots `0 .. group_count`. -/
def search_group (p : Parser) (id : PyVal) :
    Except Err (Option (Nat × Nat × Bytes)) :=
  search_group_loop p id 0 p.group_count

/-- `Parser.__contains__`: the source returns
`(self.search_group(group_ident) == None)` — true exactly when the
lookup finds nothing. -/
def contains (p : Parser) (id : PyVal) : Except Err Bool :=
  match Parser.search_group p id with
  | Except.error e => Except.error e
  | Except.ok r => Except.ok r.isNone

end Parser

/-- A `Group` object after `__init__`: index, descriptor offset and
decoded name from `search_group`, plus the 64-bit tag-stream offset read
from byte 64 of the descriptor. -/
structure Group where
  index : Nat
  offset : Nat
  name : Bytes
  tags_offset : Nat
  deriving DecidableEq

/-- `Group.__init__`: store the lookup data and read
`tags_offset = reada_long_long(offset + GROUP_NAME_SIZE)`. -/
def Group.init (p : Parser) (index offset : Nat) (name : Bytes) :
    Except Err Group :=
  match Parser.reada_long_long p (offset + GROUP_NAME_SIZE) with
  | Except.error e => Except.error e
  | Except.ok t => Except.ok ⟨index, offset, name, t⟩

/-- `Parser.__getitem__`: group lookup; raises `KeyError` when
`search_group` finds nothing, else constructs the `Group`. -/
def Parser.getItem (p : Parser) (id : PyVal) : Except Err Group :=
  match Parser.search_group p id with
  | Except.error e => Except.error e
  | Except.ok none => Except.error Err.keyError
  | Except.ok (some (i, off, nm)) => Group.init p i off nm

/-- A terminal `Tag` descriptor, with the fields `search_tag` returns
(the `parser` and `group` back-references carry no data and are passed
separately in the model). -/
structure Tag where
  name : Bytes
  indices : List Nat
  data_offset : Nat
  data_size : Nat
  data_mem_size : Nat
  compressed : Bool
  deriving DecidableEq

/-- A `MetaTag` descriptor: tag name plus the index prefix matched so
far. -/
structure MetaTag where
  name : Bytes
  indices : List Nat
  deriving DecidableEq

/-- The tagged result of `search_tag`, collapsing the
`("Tag", ...)` / `("MetaTag", ...)` tuples and the object construction
done by the callers into one step. -/
inductive TagOrMeta where
  | tg : Tag → TagOrMeta
  | meta : MetaTag → TagOrMeta
  deriving DecidableEq

/-- The comparison `name == tag` inside `search_tag`: `tag` is whatever
was passed for the tag parameter — a string compares byte-wise with the
record's name, an integer never equals a string. -/
def pyNameEq : PyVal → Bytes → Bool
  | PyVal.str s, nm => s == nm
  | PyVal.int _, _ => false

/-- The `tag_indices` loop of `search_tag`: `depth` consecutive
`read_long` calls. -/
def Parser.read_longs (p : Parser) :
    Nat → Nat → Except Err (List Nat × Nat)
  | 0, pos => Except.ok ([], pos)
  | n + 1, pos => do
    let (v, pos) ← Parser.read_long p pos
    let (vs, pos) ← Parser.read_longs p n pos
    pure (v :: vs, pos)

/-- The `while not (flags == 0 and name_size == 0)` loop of
`Group.search_tag`.  `flags` and `name_size` are the header bytes of the
record about to be examined; `pos` is the cursor just past them.  Each
iteration decodes the record per the flags byte (bits 7–6 the index
depth, bits 5–0 the encoded size, 62/63 selecting the long form with two
offset-width sizes and a reserved word), notes the payload offset, skips
the payload, reads the next record's header bytes, and only then decides:
a name mismatch continues; an exact index match returns the terminal tag;
a recorded index vector that properly extends the request returns a
meta-tag carrying the request; otherwise the source's debug call
evaluates `"".join(indexes)` with `indexes` unbound, raising `NameError`.
The cursor advances by at least two bytes per iteration, so
`file.length + 1` units of fuel are never exhausted on a terminating
scan; running out is reported as `diverge`. -/
def Group.search_tag_loop (p : Parser) (tag : PyVal) (idxs : List Nat)
    (fuel pos flags name_size : Nat) : Except Err (Option TagOrMeta) :=
  if flags = 0 ∧ name_size = 0 then Except.ok none
  else
    match fuel with
    | 0 => Except.error Err.diverge
    | fuel' + 1 => do
      let (name, pos) := Parser.read p pos name_size
      let depth := (flags >>> 6) &&& 3
      let (tag_indices, pos) ← Parser.read_longs p depth pos
      let data_size0 := flags &&& 63
      let (data_size, data_mem_size, compressed, pos) ←
        if data_size0 = 62 ∨ data_size0 = 63 then do
          let (data_size, pos) ← Parser.read_offset p pos
          let (data_mem_size, pos) ← Parser.read_offset p pos
          let (_unknown, pos) := Parser.read p pos 2
          pure (data_size, data_mem_size, data_size0 == 63, pos)
        else
          pure (data_size0, data_size0, false, pos)
      let data_offset := pos
      let pos := pos + data_size
      let (flags2, pos) ← Parser.read_byte p pos
      let (name_size2, pos) ← Parser.read_byte p pos
      if pyNameEq tag name = false then
        Group.search_tag_loop p tag idxs fuel' pos flags2 name_size2
      else if tag_indices = idxs then
        Except.ok (some (TagOrMeta.tg
          ⟨name, tag_indices, data_offset, data_size, data_mem_size,
            compressed⟩))
      else if tag_indices.take idxs.length = idxs then
        Except.ok (some (TagOrMeta.meta ⟨name, idxs⟩))
      else
        Except.error Err.nameError

/-- `Group.search_tag`: seek to the group's tag-stream offset, read the
first record's header bytes, and scan. -/
def Group.search_tag (p : Parser) (g : Group) (tag : PyVal)
    (idxs : List Nat) : Except Err (Option TagOrMeta) := do
  let pos := g.tags_offset
  let (flags, pos) ← Parser.read_byte p pos
  let (name_size, pos) ← Parser.read_byte p pos
  Group.search_tag_loop p tag idxs (p.file.length + 1) pos flags name_size

/-- `Group.__contains__`: `(self.search_tag(tag_ident) is not None)`. -/
def Group.contains (p : Parser) (g : Group) (name : Bytes) :
    Except Err Bool :=
  match Group.search_tag p g (PyVal.str name) [] with
  | Except.error e => Except.error e
  | Except.ok r => Except.ok r.isSome

/-- `Group.__getitem__`: tag lookup by name (Python subscripting passes
no extra indices); raises `AttributeError` when nothing is found. -/
def Group.getItem (p : Parser) (g : Group) (name : Bytes) :
    Except Err TagOrMeta :=
  match Group.search_tag p g (PyVal.str name) [] with
  | Except.error e => Except.error e
  | Except.ok none => Except.error Err.attributeError
  | Except.ok (some r) => Except.ok r

/-- `MetaTag.__getitem__`: repeat the search with the accumulated index
list extended by the subscript; raises `KeyError` when nothing is
found. -/
def MetaTag.getItem (p : Parser) (g : Group) (m : MetaTag) (i : Nat) :
    Except Err TagOrMeta :=
  match Group.search_tag p g (PyVal.str m.name) (m.indices ++ [i]) with
  | Except.error e => Except.error e
  | Except.ok none => Except.error Err.keyError
  | Except.ok (some r) => Except.ok r

/-- `MetaTag.__contains__`: the source calls
`self.group.search_tag(*(self.indices + (tag_index,)))` — it omits
`self.name`, so the first accumulated index (or, with an empty
accumulator, the tested index itself) is bound to the tag-name
parameter and only the remaining values are passed as indices. -/
def MetaTag.contains (p : Parser) (g : Group) (m : MetaTag) (i : Nat) :
    Except Err Bool :=
  match m.indices ++ [i] with
  | [] => Except.ok false
  | t :: rest =>
    match Group.search_tag p g (PyVal.int t) rest with
    | Except.error e => Except.error e
    | Except.ok r => Except.ok r.isSome

/-- `Tag.read(offset, size)`: the source resolves the defaulted size and
then runs `self.parser.read(self.data_offset + offset, size)`.
`Parser.read(self, size)` accepts a single size argument, so this
two-argument call raises `TypeError` before any byte is read. -/
def Tag.read (_p : Parser) (t : Tag) (offset : Nat) (size : Int) :
    Except Err Bytes :=
  let _resolved : Int :=
    if size = -1 then (t.data_size : Int) - (offset : Int) else size
  Except.error Err.typeError

/-- `Tag.read_long`: checks `data_size < 4` (raising `TypeError`) and
then reads a 32-bit value at the payload offset via `reada_long`. -/
def Tag.read_long (p : Parser) (t : Tag) : Except Err Nat :=
  if t.data_size < 4 then Except.error Err.typeError
  else Parser.reada_long p t.data_offset

/-!  The Volatility address-space wrapper (`volatility.py`). -/

/-- A run of the address space: guest-physical offset, file offset,
length. -/
abbrev Run := Nat × Nat × Nat

/-- `PAGE_SIZE` from `volatility.py`. -/
def PAGE_SIZE : Nat := 4096

/-- The bytes of the string literal `"memory"`. -/
def strMemoryGroup : Bytes := [109, 101, 109, 111, 114, 121]

/-- The bytes of the string literal `"Memory"`. -/
def strMemoryTag : Bytes := [77, 101, 109, 111, 114, 121]

/-- The bytes of the string literal `"regionsCount"`. -/
def strRegionsCount : Bytes :=
  [114, 101, 103, 105, 111, 110, 115, 67, 111, 117, 110, 116]

/-- The bytes of the string literal `"regionPPN"`. -/
def strRegionPPN : Bytes := [114, 101, 103, 105, 111, 110, 80, 80, 78]

/-- The bytes of the string literal `"regionPageNum"`. -/
def strRegionPageNum : Bytes :=
  [114, 101, 103, 105, 111, 110, 80, 97, 103, 101, 78, 117, 109]

/-- The bytes of the string literal `"regionSize"`. -/
def strRegionSize : Bytes :=
  [114, 101, 103, 105, 111, 110, 83, 105, 122, 101]

/-- The bytes of the string literal `"cpu"`. -/
def strCpu : Bytes := [99, 112, 117]

/-- The bytes of the string literal `"CR"`. -/
def strCR : Bytes := [67, 82]

/-- Subscripting the result of a tag lookup, as in
`memory["Memory"][0][0]`: a `MetaTag` repeats the search one index
deeper, while subscripting a terminal `Tag` object raises `TypeError`
(the class defines no `__getitem__`). -/
def TagOrMeta.getItem (p : Parser) (g : Group) :
    TagOrMeta → Nat → Except Err TagOrMeta
  | TagOrMeta.tg _, _ => Except.error Err.typeError
  | TagOrMeta.meta m, i => MetaTag.getItem p g m i

/-- Calling `.read_long()` on a lookup result: only a terminal `Tag`
has the method; on a `MetaTag` the attribute access raises
`AttributeError`. -/
def TagOrMeta.read_long (p : Parser) :
    TagOrMeta → Except Err Nat
  | TagOrMeta.tg t => Tag.read_long p t
  | TagOrMeta.meta _ => Except.error Err.attributeError

/-- Accessing `.data_offset` on a lookup result: a `MetaTag` has no
such attribute. -/
def TagOrMeta.data_offset : TagOrMeta → Except Err Nat
  | TagOrMeta.tg t => Except.ok t.data_offset
  | TagOrMeta.meta _ => Except.error Err.attributeError

/-- Accessing `.data_size` on a lookup result: a `MetaTag` has no such
attribute. -/
def TagOrMeta.data_size : TagOrMeta → Except Err Nat
  | TagOrMeta.tg t => Except.ok t.data_size
  | TagOrMeta.meta _ => Except.error Err.attributeError

/-- The lookup chain `memory["Memory"][0][0]` from `read_regions`. -/
def memory_tag_00 (p : Parser) (memory : Group) : Except Err TagOrMeta :=
  match Group.getItem p memory strMemoryTag with
  | Except.error e => Except.error e
  | Except.ok x =>
    match TagOrMeta.getItem p memory x 0 with
    | Except.error e => Except.error e
    | Except.ok x => TagOrMeta.getItem p memory x 0

/-- The guard
`"regionsCount" in memory and memory["regionsCount"].read_long() > 0`
of `read_regions`, with Python's short-circuit evaluation. -/
def multi_region_cond (p : Parser) (memory : Group) : Except Err Bool :=
  match Group.contains p memory strRegionsCount with
  | Except.error e => Except.error e
  | Except.ok false => Except.ok false
  | Except.ok true =>
    match Group.getItem p memory strRegionsCount with
    | Except.error e => Except.error e
    | Except.ok t =>
      match TagOrMeta.read_long p t with
      | Except.error e => Except.error e
      | Except.ok v => Except.ok (decide (0 < v))

/-- The `for region_i in range(0, region_count)` loop of
`read_regions`.  The first operation of every iteration resolves
`self.assert_as` — an attribute the class does not define (the method
the class inherits and uses elsewhere is `as_assert`) — so any
iteration raises `AttributeError` before evaluating its arguments; a
zero-trip loop produces no runs. -/
def region_loop : Nat → Except Err (List Run)
  | 0 => Except.ok []
  | _ + 1 => Except.error Err.attributeError

/-- The CR3 extraction `self.parser["cpu"]["CR"][0][3].read_long()` at
the end of `read_regions`. -/
def read_dtb (p : Parser) : Except Err Nat :=
  match Parser.getItem p (PyVal.str strCpu) with
  | Except.error e => Except.error e
  | Except.ok cpu =>
    match Group.getItem p cpu strCR with
    | Except.error e => Except.error e
    | Except.ok x =>
      match TagOrMeta.getItem p cpu x 0 with
      | Except.error e => Except.error e
      | Except.ok x =>
        match TagOrMeta.getItem p cpu x 3 with
        | Except.error e => Except.error e
        | Except.ok x => TagOrMeta.read_long p x

/-- `VMWareSnapshotFile.read_regions`: look up the `memory` group,
evaluate the multi-region guard, build the run list (the multi-region
branch re-runs the `regionsCount` lookup per line 74 before entering
the loop; the fallback branch performs the `memory["Memory"][0][0]`
chain once for `.data_offset` and once for `.data_size`, and its file
offset is `0 + data_offset`), then read the first CPU's CR3. -/
def read_regions (p : Parser) : Except Err (List Run × Nat) :=
  match Parser.getItem p (PyVal.str strMemoryGroup) with
  | Except.error e => Except.error e
  | Except.ok memory =>
    let runs : Except Err (List Run) :=
      match multi_region_cond p memory with
      | Except.error e => Except.error e
      | Except.ok true =>
        (match Group.getItem p memory strRegionsCount with
         | Except.error e => Except.error e
         | Except.ok t =>
           match TagOrMeta.read_long p t with
           | Except.error e => Except.error e
           | Except.ok region_count => region_loop region_count)
      | Except.ok false =>
        (match memory_tag_00 p memory with
         | Except.error e => Except.error e
         | Except.ok m1 =>
           match TagOrMeta.data_offset m1 with
           | Except.error e => Except.error e
           | Except.ok file_offset =>
             match memory_tag_00 p memory with
             | Except.error e => Except.error e
             | Except.ok m2 =>
               match TagOrMeta.data_size m2 with
               | Except.error e => Except.error e
               | Except.ok len2 => Except.ok [(0, 0 + file_offset, len2)])
    match runs with
    | Except.error e => Except.error e
    | Except.ok runs =>
      match read_dtb p with
      | Except.error e => Except.error e
      | Except.ok dtb => Except.ok (runs, dtb)

/-- `VMWareSnapshotFile.__init__`: construct the parser — only a
`ParserException` (bad magic) is caught and turned into the
`as_assert(False, e)` probe failure, every other error propagates —
then evaluate `"Memory" in self.parser["memory"]` (the group lookup can
raise `KeyError`, which nothing catches), assert it via `as_assert`
(the memory-not-embedded failure), and build the run table. -/
def vmw_init (file : Bytes) : Except Err (Parser × List Run × Nat) :=
  let probed : Except Err Parser :=
    match Parser.init file with
    | Except.ok p => Except.ok p
    | Except.error (Err.badMagic _) => Except.error Err.asAssertWrongFormat
    | Except.error e => Except.error e
  match probed with
  | Except.error e => Except.error e
  | Except.ok p =>
    match Parser.getItem p (PyVal.str strMemoryGroup) with
    | Except.error e => Except.error e
    | Except.ok g =>
      match Group.contains p g strMemoryTag with
      | Except.error e => Except.error e
      | Except.ok false => Except.error Err.asAssertNoMemory
      | Except.ok true =>
        match read_regions p with
        | Except.error e => Except.error e
        | Except.ok rd => Except.ok (p, rd.1, rd.2)

/-!  Concrete snapshot files, assembled per the on-disk layout that the
parser reads: a 12-byte header, 80-byte group descriptors, and per-group
tag streams terminated by two zero bytes. -/

/-- Little-endian encoding of a 32-bit value. -/
def u32le (v : Nat) : Bytes :=
  [v % 256, v / 256 % 256, v / 65536 % 256, v / 16777216 % 256]

/-- Little-endian encoding of a 64-bit value. -/
def u64le (v : Nat) : Bytes :=
  u32le (v % 4294967296) ++ u32le (v / 4294967296)

/-- Zero-pad a byte string on the right to length `n`. -/
def padTo (n : Nat) (xs : Bytes) : Bytes :=
  xs ++ List.replicate (n - xs.length) 0

/-- An 80-byte group descriptor: NUL-padded name field, 64-bit
tag-stream offset, 8 uninterpreted bytes. -/
def groupSlot (nm : Bytes) (toff : Nat) : Bytes :=
  padTo GROUP_NAME_SIZE nm ++ u64le toff ++ List.replicate 8 0

/-- The 12-byte header: magic, four unspecified bytes, group count. -/
def header (magic count : Nat) : Bytes :=
  u32le magic ++ u32le 0 ++ u32le count

/-- A short-form tag record: flags byte (index depth in bits 7–6,
payload length in bits 5–0), name-size byte, name, 32-bit indices,
payload. -/
def tagRec (nm : Bytes) (idxs : List Nat) (payload : Bytes) : Bytes :=
  [64 * idxs.length + payload.length, nm.length] ++ nm ++
    (idxs.map u32le).flatten ++ payload

/-- Minimal well-formed snapshot: groups `memory` (tag stream at 172,
holding `Memory[0][0]` with payload `[1,2,3,4]` at file offset 188) and
`cpu` (tag stream at 194, holding `CR[0][3]` with payload
`12 34 56 78` little-endian at file offset 206). -/
def fileMin : Bytes :=
  header 0xbed2bed0 2 ++ groupSlot strMemoryGroup 172 ++
    groupSlot strCpu 194 ++
    tagRec strMemoryTag [0, 0] [1, 2, 3, 4] ++ [0, 0] ++
    tagRec strCR [0, 3] (u32le 0x12345678) ++ [0, 0]

/-- The parser over `fileMin` (version 0, offset width 4, two groups). -/
def pMin : Parser := ⟨fileMin, 0, 4, 2⟩

/-- The `memory` group of `fileMin`. -/
def memGroupMin : Group := ⟨0, 12, strMemoryGroup, 172⟩

/-- Snapshot with a multi-region manifest: one group `memory` (tag
stream at 92) declaring `regionsCount = 2`. -/
def fileMR : Bytes :=
  header 0xbed2bed0 1 ++ groupSlot strMemoryGroup 92 ++
    tagRec strRegionsCount [] (u32le 2) ++ [0, 0]

/-- The parser over `fileMR`. -/
def pMR : Parser := ⟨fileMR, 0, 4, 1⟩

/-- The `memory` group of `fileMR`. -/
def memGroupMR : Group := ⟨0, 12, strMemoryGroup, 92⟩

/-- The corrupt-region-table scenario of the specification:
`regionsCount = 3` while `regionPPN` holds only indices 0 and 1 (here
with payloads `0` and `1`, at payload offsets 125 and 144). -/
def fileCR : Bytes :=
  header 0xbed2bed0 1 ++ groupSlot strMemoryGroup 92 ++
    tagRec strRegionsCount [] (u32le 3) ++
    tagRec strRegionPPN [0] (u32le 0) ++
    tagRec strRegionPPN [1] (u32le 1) ++ [0, 0]

/-- The parser over `fileCR`. -/
def pCR : Parser := ⟨fileCR, 0, 4, 1⟩

/-- The `memory` group of `fileCR`. -/
def memGroupCR : Group := ⟨0, 12, strMemoryGroup, 92⟩

/-- Snapshot with one group `g` whose tag stream holds the records
`T[0]` and `T[1]` (payload offsets 99 and 110), then the sentinel. -/
def fileTT : Bytes :=
  header 0xbed2bed0 1 ++ groupSlot [103] 92 ++
    tagRec [84] [0] [9, 9, 9, 9] ++
    tagRec [84] [1] [7, 7, 7, 7] ++ [0, 0]

/-- The parser over `fileTT`. -/
def pTT : Parser := ⟨fileTT, 0, 4, 1⟩

/-- The only group of `fileTT`. -/
def gTT : Group := ⟨0, 12, [103], 92⟩

/-- Valid header with no group slots at all. -/
def fileNoGroups : Bytes := header 0xbed2bed0 0

/-- A 70-byte group name (seventy `A` bytes): longer than the 64-byte
name field. -/
def name70 : Bytes := List.replicate 70 65

/-- Snapshot whose single group slot starts with 70 non-NUL bytes
before the first NUL: the name the scanner decodes overruns the 64-byte
name field. -/
def fileLong : Bytes := header 0xbed2bed0 1 ++ name70 ++ [0]

/-- The parser over `fileLong`. -/
def pLong : Parser := ⟨fileLong, 0, 4, 1⟩

/-- A plain 12-byte header (magic `0xBED2BED0`, group count 5). -/
def fileHdr : Bytes := header 0xbed2bed0 5

/-!  Claim theorems. -/

/-- Claim C1: the claim states that for `regionsCount = R > 0` the run
table receives, for each `i < R`, the triple
`(regionPPN[i]·4096, regionPageNum[i]·4096 + base_file_offset,
regionSize[i]·4096)`.  On the code this is false: the first statement
of every loop iteration resolves the undefined attribute
`self.assert_as`, so run-table construction over a multi-region
snapshot raises `AttributeError` and appends nothing (and the
`+ base_file_offset` continuation line is a separately indented
statement, so the base would not be added even then).  The theorem
evaluates the code on the multi-region snapshot `fileMR`. -/
theorem claim_C1_multi_region_table :
    Parser.init fileMR = Except.ok pMR ∧
    Parser.getItem pMR (PyVal.str strMemoryGroup) = Except.ok memGroupMR ∧
    multi_region_cond pMR memGroupMR = Except.ok true ∧
    read_regions pMR = Except.error Err.attributeError := by decide

/-- Claim C2: the claim states that every membership test answers true
iff the corresponding lookup succeeds.  On the code this is false in two
of the three cases, shown here on the minimal snapshot: the parser's
test returns `search_group(...) == None` (false although the `memory`
group lookup succeeds), and the meta-tag's test drops the tag name from
its `search_tag` call (false although subscripting the `Memory`
meta-tag with 0 succeeds).  The group's test has the stated behavior. -/
theorem claim_C2_membership_tests :
    Parser.contains pMin (PyVal.str strMemoryGroup) = Except.ok false ∧
    Parser.getItem pMin (PyVal.str strMemoryGroup) = Except.ok memGroupMin ∧
    MetaTag.contains pMin memGroupMin ⟨strMemoryTag, []⟩ 0 = Except.ok false ∧
    MetaTag.getItem pMin memGroupMin ⟨strMemoryTag, []⟩ 0 =
      Except.ok (TagOrMeta.meta ⟨strMemoryTag, [0]⟩) ∧
    Group.contains pMin memGroupMin strMemoryTag = Except.ok true := by
  decide

/-- Claim C3: the claim states that reading through a tag descriptor
returns the bytes of the underlying stream at
`payload_offset + k`.  On the code this is false: `Tag.read` passes two
positional arguments to the one-parameter `Parser.read`, so every read
through a tag raises `TypeError`; a direct read of the stream at the
same coordinates returns the payload byte. -/
theorem claim_C3_tag_read :
    memory_tag_00 pMin memGroupMin =
      Except.ok (TagOrMeta.tg ⟨strMemoryTag, [0, 0], 188, 4, 4, false⟩) ∧
    Tag.read pMin ⟨strMemoryTag, [0, 0], 188, 4, 4, false⟩ 0 1 =
      Except.error Err.typeError ∧
    freada fileMin 188 1 = [1] := by decide

/-- Claim C4: the claim states that a name-matching record whose
indices neither equal nor extend the request is skipped and the scan
continues.  On the code this is false: that branch evaluates
`"".join(indexes)` with `indexes` unbound and raises `NameError`.  On
`fileTT` the request `T[1]` hits the record `T[0]` first and crashes,
although `T[0]` itself is retrievable and the record `T[1]` is present
in the stream at offset 103. -/
theorem claim_C4_scan_order :
    Group.search_tag pTT gTT (PyVal.str [84]) [0] =
      Except.ok (some (TagOrMeta.tg ⟨[84], [0], 99, 4, 4, false⟩)) ∧
    freada fileTT 103 11 = tagRec [84] [1] [7, 7, 7, 7] ∧
    Group.search_tag pTT gTT (PyVal.str [84]) [1] =
      Except.error Err.nameError := by decide

/-- Claim C5: the claim states that a missing `regionPPN[i]` /
`regionPageNum[i]` / `regionSize[i]` component fails construction with
a corrupt-region-table error naming the missing index.  On the code
this is false: the guard's `self.assert_as` attribute does not exist
(the inherited method is `as_assert`), so the loop raises
`AttributeError` at region 0 regardless; moreover the membership test
it would evaluate is `MetaTag.__contains__`, which drops the tag name,
so even the present component `regionPPN[0]` tests as absent. -/
theorem claim_C5_corrupt_region_table :
    Parser.getItem pCR (PyVal.str strMemoryGroup) = Except.ok memGroupCR ∧
    Group.search_tag pCR memGroupCR (PyVal.str strRegionPPN) [0] =
      Except.ok (some (TagOrMeta.tg ⟨strRegionPPN, [0], 125, 4, 4, false⟩)) ∧
    MetaTag.contains pCR memGroupCR ⟨strRegionPPN, []⟩ 0 = Except.ok false ∧
    read_regions pCR = Except.error Err.attributeError := by decide

/-- Claim C8: on a stream holding at least the 12-byte header, parser
construction succeeds exactly for the four magics `0xBED2BED0`,
`0xBAD1BAD1`, `0xBED2BED2`, `0xBED3BED3` read little-endian at offset
0, assigning versions 0–3 and offset widths 4, 8, 8, 8, and fails with
the bad-magic error for every other 32-bit value. -/
theorem claim_C8_magic_versions (file : Bytes) (h : 12 ≤ file.length) :
    (leVal (freada file 0 4) = 0xbed2bed0 →
      Parser.init file = Except.ok ⟨file, 0, 4, leVal (freada file 8 4)⟩) ∧
    (leVal (freada file 0 4) = 0xbad1bad1 →
      Parser.init file = Except.ok ⟨file, 1, 8, leVal (freada file 8 4)⟩) ∧
    (leVal (freada file 0 4) = 0xbed2bed2 →
      Parser.init file = Except.ok ⟨file, 2, 8, leVal (freada file 8 4)⟩) ∧
    (leVal (freada file 0 4) = 0xbed3bed3 →
      Parser.init file = Except.ok ⟨file, 3, 8, leVal (freada file 8 4)⟩) ∧
    (leVal (freada file 0 4) ≠ 0xbed2bed0 →
      leVal (freada file 0 4) ≠ 0xbad1bad1 →
      leVal (freada file 0 4) ≠ 0xbed2bed2 →
      leVal (freada file 0 4) ≠ 0xbed3bed3 →
      Parser.init file = Except.error (Err.badMagic (leVal (freada file 0 4)))) := by
  have l0 : (freada file 0 4).length = 4 := by
    simp only [freada, List.length_take, List.length_drop]
    omega
  have l8 : (freada file 8 4).length = 4 := by
    simp only [freada, List.length_take, List.length_drop]
    omega
  have h0 : freada_long file 0 = Except.ok (leVal (freada file 0 4)) := by
    simp [freada_long, structUnpack, l0]
  have h8 : freada_long file 8 = Except.ok (leVal (freada file 8 4)) := by
    simp [freada_long, structUnpack, l8]
  refine ⟨fun hm => ?_, fun hm => ?_, fun hm => ?_, fun hm => ?_,
    fun h1 h2 h3 h4 => ?_⟩ <;>
    simp_all [Parser.init]

/-- Witness for claim C8: the 12-byte header with magic `0xBED2BED0`
and group count 5 yields version 0 and offset width 4. -/
theorem claim_C8_witness :
    Parser.init fileHdr = Except.ok ⟨fileHdr, 0, 4, leVal (freada fileHdr 8 4)⟩ :=
  (claim_C8_magic_versions fileHdr (by decide)).1 (by decide)

/-- Claim C10: if parser construction succeeds but the group lookup for
`memory` finds nothing, address-space construction fails with the
parser's group-not-found error (`KeyError`), which is neither the
wrong-format probe failure nor the memory-not-embedded failure — only
parser-construction errors are converted into the probe failure. -/
theorem claim_C10_no_memory_group (file : Bytes) (p : Parser)
    (h1 : Parser.init file = Except.ok p)
    (h2 : Parser.search_group p (PyVal.str strMemoryGroup) = Except.ok none) :
    vmw_init file = Except.error Err.keyError ∧
    Err.keyError ≠ Err.asAssertWrongFormat ∧
    Err.keyError ≠ Err.asAssertNoMemory := by
  refine ⟨?_, by simp, by simp⟩
  simp [vmw_init, h1, Parser.getItem, h2]

/-- Witness for claim C10: a well-formed header with group count 0. -/
theorem claim_C10_witness :
    vmw_init fileNoGroups = Except.error Err.keyError :=
  (claim_C10_no_memory_group fileNoGroups ⟨fileNoGroups, 0, 4, 0⟩
    (by decide) (by decide)).1

/-- On widths 1, 4 and 8 the fixed-width cursor reads share this shape:
`struct.unpack` over the bytes `fh.read` returned fails exactly when
the stream holds fewer than `w` bytes past the cursor. -/
theorem structUnpack_freada_trunc (file : Bytes) (pos w : Nat) (hw : 0 < w) :
    (structUnpack w (freada file pos w) = Except.error Err.truncated ↔
      file.length < pos + w) := by
  have hlen : (freada file pos w).length = min w (file.length - pos) := by
    simp [freada]
  constructor
  · intro h
    by_contra hge
    push_neg at hge
    have hc : (freada file pos w).length = w := by rw [hlen]; omega
    rw [structUnpack, if_pos hc] at h
    exact absurd h (by simp)
  · intro h
    have hc : (freada file pos w).length ≠ w := by rw [hlen]; omega
    rw [structUnpack, if_neg hc]

/-- The match each fixed-width reader performs on the unpack result
errors exactly when the unpack does. -/
theorem read_fixed_trunc (file : Bytes) (pos w : Nat) (hw : 0 < w) :
    ((match structUnpack w (freada file pos w) with
      | Except.ok v =>
        (Except.ok (v, pos + (freada file pos w).length) :
          Except Err (Nat × Nat))
      | Except.error e => Except.error e) = Except.error Err.truncated ↔
      file.length < pos + w) := by
  have h2 := structUnpack_freada_trunc file pos w hw
  cases hx : structUnpack w (freada file pos w) with
  | ok v =>
    rw [hx] at h2
    simp only [hx]
    simp at h2
    simp [h2]
  | error e =>
    have he : e = Err.truncated := by
      rw [structUnpack] at hx
      split at hx <;> simp_all
    subst he
    rw [hx] at h2
    simp only [hx]
    simp at h2
    simp [h2]

/-- Claim C7 (amended): the streaming read returns the requested bytes
while they last and silently returns fewer at end of stream — it never
signals — whereas each fixed-width cursor read (`read_byte`,
`read_long`, `read_long_long`) fails with the truncation error exactly
when fewer than 1, 4 or 8 bytes remain past the cursor. -/
theorem claim_C7_reader_truncation (p : Parser) (pos n : Nat) :
    (Parser.read p pos n).1 = (p.file.drop pos).take n ∧
    (Parser.read p pos n).1.length = min n (p.file.length - pos) ∧
    (Parser.read_byte p pos = Except.error Err.truncated ↔
      p.file.length < pos + 1) ∧
    (Parser.read_long p pos = Except.error Err.truncated ↔
      p.file.length < pos + 4) ∧
    (Parser.read_long_long p pos = Except.error Err.truncated ↔
      p.file.length < pos + 8) := by
  refine ⟨rfl, by simp [Parser.read, freada], ?_, ?_, ?_⟩
  · exact read_fixed_trunc p.file pos 1 (by omega)
  · exact read_fixed_trunc p.file pos 4 (by omega)
  · exact read_fixed_trunc p.file pos 8 (by omega)

/-- Counterexample for claim C7 as stated: the streaming read does not
fail on a short read — requesting one byte of an empty stream returns
zero bytes with no error, and requesting five bytes of a two-byte
stream returns the two bytes. -/
theorem claim_C7_counterexample :
    (Parser.read ⟨[], 0, 4, 0⟩ 0 1).1 = [] ∧
    (Parser.read ⟨[], 0, 4, 0⟩ 0 1).1.length ≠ 1 ∧
    (Parser.read ⟨[7, 7], 0, 4, 0⟩ 0 5).1 = [7, 7] := by decide

/-- Claim C9: when the `memory` group has no `regionsCount` tag, or the
tag's 32-bit value reads as zero, the run table consists of exactly the
single run `(0, payload offset of Memory[0][0], its on-disk size)`. -/
theorem claim_C9_single_region_fallback (p : Parser) (mem : Group)
    (t : TagOrMeta) (off sz d : Nat)
    (h1 : Parser.getItem p (PyVal.str strMemoryGroup) = Except.ok mem)
    (h2 : Group.contains p mem strRegionsCount = Except.ok false ∨
      (∃ tm, Group.getItem p mem strRegionsCount = Except.ok tm ∧
        TagOrMeta.read_long p tm = Except.ok 0))
    (h3 : memory_tag_00 p mem = Except.ok t)
    (h4 : TagOrMeta.data_offset t = Except.ok off)
    (h5 : TagOrMeta.data_size t = Except.ok sz)
    (h6 : read_dtb p = Except.ok d) :
    read_regions p = Except.ok ([(0, off, sz)], d) := by
  have hc : multi_region_cond p mem = Except.ok false := by
    rcases h2 with h | ⟨tm, htm, hv⟩
    · simp [multi_region_cond, h]
    · have hs : Group.search_tag p mem (PyVal.str strRegionsCount) [] =
          Except.ok (some tm) := by
        rw [Group.getItem] at htm
        cases hx : Group.search_tag p mem (PyVal.str strRegionsCount) [] with
        | error e => rw [hx] at htm; exact absurd htm (by simp)
        | ok r =>
          cases r with
          | none => rw [hx] at htm; exact absurd htm (by simp)
          | some r => rw [hx] at htm; simp at htm; rw [htm]
      simp [multi_region_cond, Group.contains, hs, Group.getItem, hv]
  simp [read_regions, h1, hc, h3, h4, h5, h6]

/-- Witness for claim C9: on the minimal snapshot (no `regionsCount`
tag) the run table is the single run `(0, 188, 4)` and the dtb is the
CR3 payload. -/
theorem claim_C9_witness :
    read_regions pMin = Except.ok ([(0, 188, 4)], 0x12345678) :=
  claim_C9_single_region_fallback pMin memGroupMin
    (TagOrMeta.tg ⟨strMemoryTag, [0, 0], 188, 4, 4, false⟩) 188 4 0x12345678
    (by decide) (Or.inl (by decide)) (by decide) (by decide) (by decide)
    (by decide)

/-!  The group-name decoding of claim C6.  The claim caps the name scan
at `GROUP_NAME_SIZE` bytes; the code's scan (`scanName`) has no cap.
`search_group_claimed` renders the lookup exactly as the claim words
it, for comparison with `Parser.search_group`. -/

/-- Name decoding as claim C6 states it: stop at the first NUL byte or
after `cap` bytes, whichever comes first. -/
def scanNameCapped : Nat → Bytes → Bytes
  | 0, _ => []
  | _ + 1, [] => []
  | cap + 1, b :: bs => if b = 0 then [] else b :: scanNameCapped cap bs

/-- The slot loop of the lookup as claim C6 states it. -/
def search_group_claimed_loop (p : Parser) (id : PyVal) :
    Nat → Nat → Option (Nat × Nat × Bytes)
  | _, 0 => none
  | i, r + 1 =>
    let nm :=
      scanNameCapped GROUP_NAME_SIZE
        (p.file.drop (HEADER_SIZE + i * GROUP_SIZE))
    if identMatches id nm i then some (i, HEADER_SIZE + i * GROUP_SIZE, nm)
    else search_group_claimed_loop p id (i + 1) r

/-- The group lookup as claim C6 states it. -/
def search_group_claimed (p : Parser) (id : PyVal) :
    Option (Nat × Nat × Bytes) :=
  search_group_claimed_loop p id 0 p.group_count

/-- A successful `search_group_loop` result is the first matching slot
at or after `i`, with the name decoded by the uncapped NUL scan. -/
theorem search_group_loop_ok_some (p : Parser) (id : PyVal) :
    ∀ r i k off nm,
      Parser.search_group_loop p id i r = Except.ok (some (k, off, nm)) →
      i ≤ k ∧ k < i + r ∧ off = HEADER_SIZE + k * GROUP_SIZE ∧
      scanName (p.file.drop (HEADER_SIZE + k * GROUP_SIZE)) = some nm ∧
      identMatches id nm k = true ∧
      (∀ j, i ≤ j → j < k →
        ∃ nmj,
          scanName (p.file.drop (HEADER_SIZE + j * GROUP_SIZE)) = some nmj ∧
          identMatches id nmj j = false) := by
  intro r
  induction r with
  | zero =>
    intro i k off nm h
    simp [Parser.search_group_loop] at h
  | succ r ih =>
    intro i k off nm h
    simp only [Parser.search_group_loop] at h
    cases hscan : scanName (p.file.drop (HEADER_SIZE + i * GROUP_SIZE)) with
    | none => rw [hscan] at h; exact absurd h (by simp)
    | some nm0 =>
      rw [hscan] at h
      simp only at h
      cases hm : identMatches id nm0 i with
      | false =>
        rw [hm] at h
        simp only [Bool.false_eq_true, if_false] at h
        obtain ⟨h1, h2, h3, h4, h5, h6⟩ := ih (i + 1) k off nm h
        refine ⟨by omega, by omega, h3, h4, h5, ?_⟩
        intro j hij hjk
        rcases Nat.eq_or_lt_of_le hij with heq | hlt
        · exact ⟨nm0, by rw [← heq]; exact hscan, by rw [← heq]; exact hm⟩
        · exact h6 j hlt hjk
      | true =>
        rw [hm] at h
        simp only [if_true] at h
        simp only [Except.ok.injEq, Option.some.injEq, Prod.mk.injEq] at h
        obtain ⟨hk, hoff, hnm⟩ := h
        subst hk
        subst hnm
        refine ⟨Nat.le_refl i, by omega, hoff.symm, hscan, hm, ?_⟩
        intro j hij hjk
        omega

/-- A `search_group_loop` miss means every slot in range decodes to a
name and fails the match. -/
theorem search_group_loop_ok_none (p : Parser) (id : PyVal) :
    ∀ r i,
      Parser.search_group_loop p id i r = Except.ok none →
      ∀ j, i ≤ j → j < i + r →
        ∃ nmj,
          scanName (p.file.drop (HEADER_SIZE + j * GROUP_SIZE)) = some nmj ∧
          identMatches id nmj j = false := by
  intro r
  induction r with
  | zero =>
    intro i h j hij hjk
    omega
  | succ r ih =>
    intro i h j hij hjk
    simp only [Parser.search_group_loop] at h
    cases hscan : scanName (p.file.drop (HEADER_SIZE + i * GROUP_SIZE)) with
    | none => rw [hscan] at h; exact absurd h (by simp)
    | some nm0 =>
      rw [hscan] at h
      simp only at h
      cases hm : identMatches id nm0 i with
      | false =>
        rw [hm] at h
        simp only [Bool.false_eq_true, if_false] at h
        rcases Nat.eq_or_lt_of_le hij with heq | hlt
        · exact ⟨nm0, by rw [← heq]; exact hscan, by rw [← heq]; exact hm⟩
        · exact ih (i + 1) h j hlt (by omega)
      | true =>
        rw [hm] at h
        simp only [if_true] at h
        exact absurd h (by simp)

/-- Claim C6 (amended): the group lookup scans slots `0..group_count`
at `HEADER_SIZE + i·GROUP_SIZE`, decodes each slot's name by reading
bytes up to the first NUL byte (with no 64-byte cap), and returns the
first slot whose decoded name or index equals the identifier; a miss
over all slots returns not-found. -/
theorem claim_C6_group_lookup (p : Parser) (id : PyVal) :
    (∀ k off nm,
      Parser.search_group p id = Except.ok (some (k, off, nm)) →
      k < p.group_count ∧ off = HEADER_SIZE + k * GROUP_SIZE ∧
      scanName (p.file.drop (HEADER_SIZE + k * GROUP_SIZE)) = some nm ∧
      identMatches id nm k = true ∧
      (∀ j, j < k →
        ∃ nmj,
          scanName (p.file.drop (HEADER_SIZE + j * GROUP_SIZE)) = some nmj ∧
          identMatches id nmj j = false)) ∧
    (Parser.search_group p id = Except.ok none →
      ∀ j, j < p.group_count →
        ∃ nmj,
          scanName (p.file.drop (HEADER_SIZE + j * GROUP_SIZE)) = some nmj ∧
          identMatches id nmj j = false) := by
  constructor
  · intro k off nm h
    obtain ⟨h1, h2, h3, h4, h5, h6⟩ :=
      search_group_loop_ok_some p id p.group_count 0 k off nm h
    exact ⟨by omega, h3, h4, h5, fun j hj => h6 j (Nat.zero_le j) hj⟩
  · intro h j hj
    exact search_group_loop_ok_none p id p.group_count 0 h j (Nat.zero_le j)
      (by omega)

/-- Witness for claim C6 (amended): on `fileLong` the lookup matches
slot 0 via the 70-byte decoded name. -/
theorem claim_C6_witness :
    0 < pLong.group_count ∧
    scanName (pLong.file.drop (HEADER_SIZE + 0 * GROUP_SIZE)) = some name70 ∧
    identMatches (PyVal.str name70) name70 0 = true := by
  have h := (claim_C6_group_lookup pLong (PyVal.str name70)).1 0 12 name70
    (by decide)
  exact ⟨h.1, h.2.2.1, h.2.2.2.1⟩

/-- Counterexample for claim C6 as stated: on `fileLong` the slot's
first NUL byte sits 70 bytes in, so the code decodes a 70-byte name and
finds the group, while the claimed procedure — name capped at 64
bytes — finds nothing. -/
theorem claim_C6_counterexample :
    Parser.search_group pLong (PyVal.str name70) =
      Except.ok (some (0, 12, name70)) ∧
    search_group_claimed pLong (PyVal.str name70) = none := by decide

end Vmsn


